import Mathlib

/-!
Verification development for the vignette storytelling bot.

The development shallowly embeds the three core modules:

* `src/vignette/generator.py` — the candidate pipeline engine (`GeneratorGraph`):
  fan-out generation, join, selection, then the linear refine → visualize →
  render chain.  Impure stage callables are embedded as Lean functions into
  `Except E`, where `E` stands for the Python exception raised by a failed
  remote call; the generator callable additionally receives its branch index,
  standing for the fact that each of the `num_candidates` concurrent calls to
  the same impure Python callable may return a different value.
* `src/vignette/ai.py` — the retry layer (`AI.retry`, built from
  `tenacity.stop_after_attempt(4)`, `wait_exponential()`, `reraise=True`, and
  an `after` hook logging each failed attempt) and the keyword-argument shapes
  of the three `GeneratorGraph(...)` construction calls.
* `src/vignette/bot.py` — the orchestration layer: `Scene`/`Action` data,
  `Scene.outcomes`, and the handlers `handle_start`, `handle_reply`,
  `handle_end`, `_has_majority_replied`.  Chat-platform side effects are
  collected into an explicit effect list; an uncaught Python exception is
  modelled as a `raised` field of the handler result.
-/

namespace Vignette

/-- Python list indexing `xs[i]` for a possibly negative `Int` index, as used
by `refine`'s `state.candidates[state.winner_index]`: a negative index counts
from the end, an out-of-range index is an `IndexError`, modelled as `none`. -/
def pyGet {α : Type} (xs : List α) (i : Int) : Option α :=
  let j : Int := if i < 0 then i + xs.length else i
  if 0 ≤ j ∧ j < xs.length then xs[j.toNat]? else none

/-- Nodes of the generator graph, from `generator.py`'s `Node` enum. -/
inductive Node where
  | generate_candidate
  | select_winner
  | refine
  | visualize
  | render
deriving DecidableEq, Repr

/-- Edges wired by `GeneratorGraph.__init__` after the fan-out
(`add_edge` calls on lines 77-81 of `generator.py`). -/
def graphEdges : List (Node × Node) :=
  [(Node.generate_candidate, Node.select_winner),
   (Node.select_winner, Node.refine),
   (Node.refine, Node.visualize),
   (Node.visualize, Node.render)]

/-- Final pipeline state, from `generator.py`'s `GeneratorState` model.
`original` and `num_candidates` are caller-initialized; the remaining fields
are computed by the graph and are `none` until their stage has run. -/
structure GeneratorState where
  original : String
  num_candidates : Nat
  candidates : List String
  winner_index : Option Int
  refined : Option String
  visualized : Option String
  image_url : Option String
deriving DecidableEq, Repr

/-- The pipeline engine configuration, from `GeneratorGraph.__init__` in
`generator.py`: the seed text, the branch count, and the five stage callables.
Each callable may raise (the `Except.error` case).  The generator's extra
`Nat` argument is the branch index of the impure call; the Python callable is
invoked as `self.generator(state.original)` on every branch. -/
structure GeneratorGraph (E : Type) where
  original : String
  num_candidates : Nat
  generator : Nat → String → Except E String
  selector : String → Except E Int
  refiner : String → Except E String
  visualizer : String → Except E (Option String)
  renderer : Option String → Except E (Option String)

/-- The `parts` list built inside `GeneratorGraph.join_candidates`:
`[f"{index}. {text}" for index, text in enumerate(candidates)]`. -/
def join_parts (candidates : List String) : List String :=
  candidates.enum.map (fun p => toString p.1 ++ ". " ++ p.2)

/-- `GeneratorGraph.join_candidates` from `generator.py`:
the zero-based-numbered candidates joined by blank lines. -/
def GeneratorGraph.join_candidates (candidates : List String) : String :=
  String.intercalate "\n\n" (join_parts candidates)

/-- An error aborting a pipeline run: either a stage callable raised (`stage`),
or `refine`'s `state.candidates[state.winner_index]` raised an `IndexError`. -/
inductive PipeError (E : Type) where
  | stage : E → PipeError E
  | indexError : PipeError E
deriving DecidableEq, Repr

/-- The fan-out phase: `broadcast_candidates` sends `num_candidates` copies of
the state to `generate_candidate`, each branch contributing
`self.generator(state.original)` to `candidates` in branch-index order. -/
def generatePhase {E : Type} (g : GeneratorGraph E) : Except E (List String) :=
  (List.range g.num_candidates).mapM (fun i => g.generator i g.original)

/-- `GeneratorGraph.invoke` from `generator.py`: runs the compiled graph
`START → generate_candidate (×N) → select_winner → refine → visualize →
render → END` and returns the final state, paired with the trace of graph
nodes that executed (all N fan-out branches run in one superstep, then the
linear chain).  A raised stage exception aborts the run. -/
def GeneratorGraph.invoke {E : Type} (g : GeneratorGraph E) :
    Except (PipeError E) GeneratorState × List Node :=
  let genTrace := List.replicate g.num_candidates Node.generate_candidate
  match generatePhase g with
  | .error e => (.error (.stage e), genTrace)
  | .ok candidates =>
    let trace1 := genTrace ++ [Node.select_winner]
    match g.selector (GeneratorGraph.join_candidates candidates) with
    | .error e => (.error (.stage e), trace1)
    | .ok index =>
      let trace2 := trace1 ++ [Node.refine]
      match pyGet candidates index with
      | none => (.error .indexError, trace2)
      | some winner =>
        match g.refiner winner with
        | .error e => (.error (.stage e), trace2)
        | .ok refined =>
          let trace3 := trace2 ++ [Node.visualize]
          match g.visualizer refined with
          | .error e => (.error (.stage e), trace3)
          | .ok visualized =>
            let trace4 := trace3 ++ [Node.render]
            match g.renderer visualized with
            | .error e => (.error (.stage e), trace4)
            | .ok image_url =>
              (.ok { original := g.original
                     num_candidates := g.num_candidates
                     candidates := candidates
                     winner_index := some index
                     refined := some refined
                     visualized := visualized
                     image_url := image_url }, trace4)

/-! ### Retry layer (`AI.retry` in `ai.py`) -/

/-- Outcome of one retry-wrapped invocation: the final result (the underlying
value on success, the underlying last exception on exhaustion — `reraise=True`
re-raises it rather than wrapping it), the exceptions logged by the `after`
hook (one per failed attempt, in order), and the number of attempts made. -/
structure RetryOutcome (E A : Type) where
  result : Except E A
  failedLog : List E
  attemptsMade : Nat

/-- Attempt loop of `tenacity.retry(stop=stop_after_attempt(maxAttempts),
reraise=True, after=log)`: `call k` is the result of the `k`-th (1-based)
invocation of the wrapped callable; `remaining` is the number of further
attempts the stop condition still allows after the current one. -/
def retryGo {E A : Type} (call : Nat → Except E A) (k : Nat) (log : List E) :
    Nat → RetryOutcome E A
  | 0 =>
    match call k with
    | .ok a => ⟨.ok a, log.reverse, k⟩
    | .error e => ⟨.error e, (e :: log).reverse, k⟩
  | r + 1 =>
    match call k with
    | .ok a => ⟨.ok a, log.reverse, k⟩
    | .error e => retryGo call (k + 1) (e :: log) r

/-- `AI.retry`-wrapped execution of an impure callable whose successive
invocation results are given by `call`: up to `maxAttempts` attempts. -/
def retryCall {E A : Type} (maxAttempts : Nat) (call : Nat → Except E A) :
    RetryOutcome E A :=
  retryGo call 1 [] (maxAttempts - 1)

/-- Attempt bound configured in `AI.retry`: `stop_after_attempt(4)`. -/
def retryMaxAttempts : Nat := 4

/-- Backoff schedule of `tenacity.wait_exponential()` with its default
multiplier 1: the wait after the `attempt`-th failed attempt, in seconds. -/
def waitExponential (attempt : Nat) : Nat := 2 ^ (attempt - 1)

/-! ### Keyword shapes of the `GeneratorGraph(...)` construction calls -/

/-- Parameter names of `GeneratorGraph.__init__` in `generator.py`
(lines 49-57), none of which has a default value. -/
def generatorInitParams : List String :=
  ["original", "num_candidates", "generator", "selector", "refiner",
   "visualizer", "renderer"]

/-- Keyword-argument names used by all three `GeneratorGraph(...)` calls in
`ai.py` (`create_scene` line 137, `add_action` line 171, `end_scene`
line 211); every argument is passed by keyword. -/
def pipelineCallKeywords : List String :=
  ["num_candidates", "inputs", "generator", "selector", "refiner",
   "visualizer", "renderer"]

/-- Python keyword-only call compatibility for a function without defaults or
`**kwargs`: every given keyword must name a parameter (else
`TypeError: unexpected keyword argument`) and every parameter must be given
(else `TypeError: missing required argument`). -/
def kwCallOk (params given : List String) : Bool :=
  given.all (fun k => params.contains k) && params.all (fun k => given.contains k)

/-- The `inputs` list built by `AI.create_scene`: `[description]`. -/
def createSceneInputs (description : String) : List String := [description]

/-- The `inputs` list built by `AI.add_action`:
`[scene, outcomes, name, action]`. -/
def addActionInputs (scene outcomes name action : String) : List String :=
  [scene, outcomes, name, action]

/-- The `inputs` list built by `AI.end_scene`: `[scene, outcomes]`. -/
def endSceneInputs (scene outcomes : String) : List String :=
  [scene, outcomes]

/-! ### Orchestration layer (`bot.py`) -/

/-- One participant's submitted action, from `bot.py`'s `Action` dataclass;
`outcome` is `none` while outcome generation is in flight. -/
structure Action where
  name : String
  action : String
  outcome : Option String
deriving DecidableEq, Repr

/-- The active scene, from `bot.py`'s `Scene` dataclass.  The Python `actions`
dict is insertion-ordered, so it is embedded as an association list. -/
structure Scene where
  message_id : Nat
  description : String
  actions : List (Nat × Action)
deriving DecidableEq, Repr

/-- Membership test `user_id in scene.actions`. -/
def containsUser (actions : List (Nat × Action)) (uid : Nat) : Bool :=
  actions.any (fun p => p.1 = uid)

/-- Deletion `del scene.actions[user_id]` (keeps the order of other keys). -/
def removeUser (actions : List (Nat × Action)) (uid : Nat) :
    List (Nat × Action) :=
  actions.filter (fun p => p.1 ≠ uid)

/-- In-place update `scene.actions[user_id].outcome = outcome`
(keeps insertion order). -/
def setOutcome (actions : List (Nat × Action)) (uid : Nat) (o : String) :
    List (Nat × Action) :=
  actions.map (fun p => if p.1 = uid then (p.1, { p.2 with outcome := some o }) else p)

/-- `Scene.outcomes` from `bot.py`: the truthy outcomes (`if action.outcome`
drops both `None` and the empty string) of the actions in insertion order,
joined by one blank line. -/
def Scene.outcomes (s : Scene) : String :=
  String.intercalate "\n\n"
    (s.actions.filterMap (fun p =>
      match p.2.outcome with
      | some o => if o = "" then none else some o
      | none => none))

/-- Observable side effects of a handler: chat-platform operations and the
three AI pipeline invocations, with the arguments they were given. -/
inductive BotEffect where
  | ackEffect
  | sendReply (text : String)
  | sendPhoto (photo : Option String) (caption : String)
  | callCreateScene (description : String)
  | callAddAction (scene outcomes name action : String)
  | callEndScene (scene outcomes : String)
deriving DecidableEq, Repr

/-- Whether an effect is an invocation of the generation pipeline. -/
def isPipelineCall : BotEffect → Bool
  | .callCreateScene _ => true
  | .callAddAction _ _ _ _ => true
  | .callEndScene _ _ => true
  | _ => false

/-- Result of one handler run: the chat's scene slot afterwards, the effects
in execution order, and the exception that escaped the handler, if any. -/
structure BotStep (E : Type) where
  chatData : Option Scene
  effects : List BotEffect
  raised : Option E
deriving DecidableEq, Repr

/-- Warning text from `bot.py`, `handle_start`. -/
def warnMissingDescription : String := "⚠️ Missing description."

/-- Warning text from `bot.py`, `handle_start`. -/
def warnSceneActive : String := "⚠️ There is already an active scene."

/-- Warning text from `bot.py`, `handle_start`. -/
def warnErrorCreating : String := "⚠️ Error while creating the scene."

/-- Warning text from `bot.py`, `handle_reply`. -/
def warnAlreadyReplied : String := "⚠️ You have already replied to this scene."

/-- Warning text from `bot.py`, `handle_reply`. -/
def warnErrorProcessing : String := "⚠️ Error while processing the action."

/-- Warning text from `bot.py`, `handle_end`. -/
def warnNoActiveScene : String := "⚠️ No active scene to end."

/-- Warning text from `bot.py`, `handle_end`. -/
def warnErrorCompleting : String := "⚠️ Error while completing the scene."

/-- `Bot._has_majority_replied` from `bot.py`: the recorded-action count
strictly exceeds `num_members // 2`. -/
def hasMajorityReplied (chatData : Option Scene) (numMembers : Nat) : Bool :=
  decide (numMembers / 2 < (match chatData with
    | some s => s.actions.length
    | none => 0))

/-- `Bot.handle_end` from `bot.py`.  `endResult` is the outcome of the
`ai.end_scene` call: `Except.error` if it raised, otherwise the returned
summary (`none` modelling Python `None`; `if not summary` also treats the
empty string as a failure). -/
def handle_end {E : Type} (chatData : Option Scene)
    (endResult : Except E (Option String)) : BotStep E :=
  match chatData with
  | none => ⟨none, [.sendReply warnNoActiveScene], none⟩
  | some scene =>
    let eff0 := [BotEffect.ackEffect,
                 .callEndScene scene.description scene.outcomes]
    match endResult with
    | .error e => ⟨some scene, eff0, some e⟩
    | .ok summary =>
      match summary with
      | none => ⟨some scene, eff0 ++ [.sendReply warnErrorCompleting], none⟩
      | some s =>
        if s = "" then ⟨some scene, eff0 ++ [.sendReply warnErrorCompleting], none⟩
        else ⟨none, eff0 ++ [.sendReply s], none⟩

/-- `Bot.handle_reply` from `bot.py`.  `replyToId` is the id of the message
the user replied to, `name` is `Bot._normalize_name(from_user)`, `text` the
reply text, `numMembers` the chat member count.  `addActionResult` and
`endSceneResult` are the outcomes of the `ai.add_action` call and of the
`ai.end_scene` call made by the nested `handle_end`, each `Except.error` if
the call raised. -/
def handle_reply {E : Type} (chatData : Option Scene)
    (replyToId userId : Nat) (name text : String) (numMembers : Nat)
    (addActionResult : Except E (Option String))
    (endSceneResult : Except E (Option String)) : BotStep E :=
  match chatData with
  | none => ⟨none, [], none⟩
  | some scene =>
    if replyToId ≠ scene.message_id then ⟨some scene, [], none⟩
    else if containsUser scene.actions userId then
      ⟨some scene, [.sendReply warnAlreadyReplied], none⟩
    else
      let reserved : Scene :=
        { scene with actions := scene.actions ++ [(userId, ⟨name, text, none⟩)] }
      let eff0 := [BotEffect.ackEffect,
                   .callAddAction scene.description reserved.outcomes name text]
      match addActionResult with
      | .error e => ⟨some reserved, eff0, some e⟩
      | .ok outcome =>
        match outcome with
        | none =>
          ⟨some { reserved with actions := removeUser reserved.actions userId },
           eff0 ++ [.sendReply warnErrorProcessing], none⟩
        | some o =>
          if o = "" then
            ⟨some { reserved with actions := removeUser reserved.actions userId },
             eff0 ++ [.sendReply warnErrorProcessing], none⟩
          else
            let updated : Scene :=
              { reserved with actions := setOutcome reserved.actions userId o }
            let eff1 := eff0 ++ [.sendReply o]
            if hasMajorityReplied (some updated) numMembers then
              let endStep := handle_end (some updated) endSceneResult
              ⟨endStep.chatData, eff1 ++ endStep.effects, endStep.raised⟩
            else ⟨some updated, eff1, none⟩

/-- `Bot.handle_start` from `bot.py`.  `args` are the command arguments,
`createResult` the outcome of the `ai.create_scene` call (a pair of expanded
description and image URL on success), `newMessageId` the id of the posted
scene message. -/
def handle_start {E : Type} (chatData : Option Scene) (args : List String)
    (createResult : Except E (Option String × Option String))
    (newMessageId : Nat) : BotStep E :=
  if args.isEmpty then ⟨chatData, [.sendReply warnMissingDescription], none⟩
  else if chatData.isSome then ⟨chatData, [.sendReply warnSceneActive], none⟩
  else
    let initial := String.intercalate " " args
    let eff0 := [BotEffect.ackEffect, .callCreateScene initial]
    match createResult with
    | .error e => ⟨chatData, eff0, some e⟩
    | .ok pair =>
      match pair.1 with
      | none => ⟨chatData, eff0 ++ [.sendReply warnErrorCreating], none⟩
      | some d =>
        if d = "" then ⟨chatData, eff0 ++ [.sendReply warnErrorCreating], none⟩
        else ⟨some ⟨newMessageId, d, []⟩, eff0 ++ [.sendPhoto pair.2 d], none⟩

/-! ### Concrete pipeline configurations used as test vehicles -/

/-- A three-candidate pipeline whose selector call raises after retries. -/
def cgSelFail : GeneratorGraph String where
  original := "seed"
  num_candidates := 3
  generator := fun i _ => .ok (toString i)
  selector := fun _ => .error "selector boom"
  refiner := fun w => .ok (w ++ "-refined")
  visualizer := fun s => .ok (some (s ++ "-viz"))
  renderer := fun v => .ok (v.map (fun s => s ++ "-url"))

/-- A one-candidate pipeline whose selector returns the out-of-range index 1. -/
def cgOutOfRange : GeneratorGraph String where
  original := "seed"
  num_candidates := 1
  generator := fun _ _ => .ok "A"
  selector := fun _ => .ok 1
  refiner := fun w => .ok (w ++ "-refined")
  visualizer := fun s => .ok (some (s ++ "-viz"))
  renderer := fun v => .ok (v.map (fun s => s ++ "-url"))

/-- A two-candidate pipeline in which every stage succeeds and the selector
picks index 1. -/
def cgGood : GeneratorGraph String where
  original := "seed"
  num_candidates := 2
  generator := fun i _ => .ok (toString i)
  selector := fun _ => .ok 1
  refiner := fun w => .ok (w ++ "-refined")
  visualizer := fun s => .ok (some (s ++ "-viz"))
  renderer := fun v => .ok (v.map (fun s => s ++ "-url"))

/-- Helper: Python indexing with a nonnegative in-range index is plain list
indexing. -/
theorem pyGet_of_nonneg_lt {α : Type} (xs : List α) (i : Int)
    (h0 : 0 ≤ i) (hlt : i < xs.length) : pyGet xs i = xs[i.toNat]? := by
  have hneg : ¬ i < 0 := by omega
  simp only [pyGet, if_neg hneg]
  rw [if_pos ⟨h0, hlt⟩]

/-! ### Claims -/

/-- C1, counterexample: in `cgSelFail` the selector's underlying call fails,
and the pipeline ABORTS with that exception right after the selection node —
it does not default the selection to index 0 and it never reaches the refine
stage, contrary to the claim that selection failure is non-fatal. -/
theorem c1_selector_failure_aborts_counterexample :
    cgSelFail.invoke =
      (.error (.stage "selector boom"),
       [Node.generate_candidate, .generate_candidate, .generate_candidate,
        .select_winner]) ∧
    ∀ st : GeneratorState, cgSelFail.invoke.1 ≠ .ok st := by
  refine ⟨rfl, ?_⟩
  intro st
  rw [show cgSelFail.invoke.1 = .error (.stage "selector boom") from rfl]
  intro h
  exact Except.noConfusion h

/-- C1, amended: if the selector's underlying call fails (raises after
retries), the failure propagates and the whole pipeline run aborts with that
exception right after the selection node; no default index is applied and no
later stage runs — selection failure is fatal exactly like the other stage
failures. -/
theorem c1_selector_failure_propagates {E : Type} (g : GeneratorGraph E)
    (cands : List String) (e : E)
    (hgen : generatePhase g = .ok cands)
    (hsel : g.selector (GeneratorGraph.join_candidates cands) = .error e) :
    g.invoke =
      (.error (.stage e),
       List.replicate g.num_candidates Node.generate_candidate ++
         [Node.select_winner]) := by
  simp [GeneratorGraph.invoke, hgen, hsel]

/-- C1, witness: the amended statement applied to `cgSelFail`. -/
theorem c1_selector_failure_propagates_witness :
    cgSelFail.invoke =
      (.error (.stage "selector boom"),
       List.replicate 3 Node.generate_candidate ++ [Node.select_winner]) :=
  c1_selector_failure_propagates cgSelFail ["0", "1", "2"] "selector boom" rfl rfl

/-- C5, counterexample: in `cgOutOfRange` there is N = 1 candidate and the
selection stage runs and returns index 1 ∉ [0, 1), so the refine stage's
dereference `candidates[winner_index]` fails with an `IndexError`, contrary to
the claim that `winner_index` is always a valid index once selection has
run. -/
theorem c5_winner_index_counterexample :
    cgOutOfRange.invoke =
      (.error .indexError,
       [Node.generate_candidate, .select_winner, .refine]) := rfl

/-- C5, amended: `winner_index` is exactly the index returned by the selector,
with no validation or clamping; when that index lies in `[0, N)` the refine
stage's dereference `candidates[winner_index]` succeeds and the run can never
abort with an index error, but an out-of-range selector result makes the
dereference itself fail. -/
theorem c5_in_range_winner_dereference {E : Type} (g : GeneratorGraph E)
    (cands : List String) (i : Int)
    (hgen : generatePhase g = .ok cands)
    (hsel : g.selector (GeneratorGraph.join_candidates cands) = .ok i)
    (h0 : 0 ≤ i) (hlt : i < cands.length) :
    (∃ w, cands[i.toNat]? = some w ∧ pyGet cands i = some w) ∧
      (g.invoke).1 ≠ .error PipeError.indexError := by
  have htn : i.toNat < cands.length := by omega
  have hw : pyGet cands i = some cands[i.toNat] := by
    rw [pyGet_of_nonneg_lt cands i h0 hlt, List.getElem?_eq_getElem htn]
  refine ⟨⟨cands[i.toNat], List.getElem?_eq_getElem htn, hw⟩, ?_⟩
  simp only [GeneratorGraph.invoke, hgen, hsel, hw]
  cases hr : g.refiner cands[i.toNat] with
  | error e => simp
  | ok r =>
    cases hv : g.visualizer r with
    | error e => simp [hv]
    | ok v =>
      cases hu : g.renderer v with
      | error e => simp [hv, hu]
      | ok u => simp [hv, hu]

/-- C5, witness: the amended statement applied to `cgGood`. -/
theorem c5_in_range_winner_dereference_witness :
    (∃ w, (["0", "1"] : List String)[(1 : Int).toNat]? = some w ∧
        pyGet ["0", "1"] (1 : Int) = some w) ∧
      (cgGood.invoke).1 ≠ .error PipeError.indexError :=
  c5_in_range_winner_dereference cgGood ["0", "1"] 1 rfl rfl (by decide) (by decide)

/-- C7: stages execute in the fixed order generate → select → refine →
visualize → render, and each stage's input is exactly the previous stage's
output: refine is applied to `candidates[winner_index]`, visualize to the
refiner's output, render to the visualizer's output (which may be the absent
value). -/
theorem c7_stage_order_and_dataflow {E : Type} (g : GeneratorGraph E)
    (cands : List String) (i : Int) (w r : String) (v u : Option String)
    (hgen : generatePhase g = .ok cands)
    (hsel : g.selector (GeneratorGraph.join_candidates cands) = .ok i)
    (hw : pyGet cands i = some w)
    (hr : g.refiner w = .ok r)
    (hv : g.visualizer r = .ok v)
    (hu : g.renderer v = .ok u) :
    g.invoke =
      (.ok { original := g.original, num_candidates := g.num_candidates,
             candidates := cands, winner_index := some i,
             refined := some r, visualized := v, image_url := u },
       List.replicate g.num_candidates Node.generate_candidate ++
         [Node.select_winner, Node.refine, Node.visualize, Node.render]) := by
  simp [GeneratorGraph.invoke, hgen, hsel, hw, hr, hv, hu]

/-- C7, witness: the stage-order/dataflow statement applied to `cgGood`. -/
theorem c7_stage_order_and_dataflow_witness :
    cgGood.invoke =
      (.ok { original := "seed", num_candidates := 2, candidates := ["0", "1"],
             winner_index := some 1, refined := some "1-refined",
             visualized := some "1-refined-viz",
             image_url := some "1-refined-viz-url" },
       List.replicate 2 Node.generate_candidate ++
         [Node.select_winner, Node.refine, Node.visualize, Node.render]) :=
  c7_stage_order_and_dataflow cgGood ["0", "1"] 1 "1" "1-refined"
    (some "1-refined-viz") (some "1-refined-viz-url") rfl rfl rfl rfl rfl rfl

/-- C8: the joined text presented to the selector is one block per candidate
in branch-index order, each block prefixed by its zero-based index, blocks
separated by a blank line; e.g. `"0. A\n\n1. B\n\n2. C"` for candidates
A, B, C. -/
theorem c8_join_candidates_format :
    (∀ cands, GeneratorGraph.join_candidates cands =
      String.intercalate "\n\n" (join_parts cands)) ∧
    (∀ cands, (join_parts cands).length = cands.length) ∧
    (∀ cands (i : Nat), (join_parts cands)[i]? =
      (cands[i]?).map (fun t => toString i ++ ". " ++ t)) ∧
    GeneratorGraph.join_candidates ["A", "B", "C"] = "0. A\n\n1. B\n\n2. C" := by
  refine ⟨fun _ => rfl, fun cands => by simp [join_parts], ?_, rfl⟩
  intro cands i
  simp only [join_parts, List.getElem?_map, List.getElem?_enum, Option.map_map]
  rfl

/-- The scene right after `handle_reply` reserves the user's slot
(`scene.actions[user_id] = Action(name, action, outcome=None)`). -/
def replyReserved (s : Scene) (uid : Nat) (name text : String) : Scene :=
  { s with actions := s.actions ++ [(uid, ⟨name, text, none⟩)] }

/-- The scene after `handle_reply` stores a successful outcome
(`scene.actions[user_id].outcome = outcome`). -/
def replyAccepted (s : Scene) (uid : Nat) (name text o : String) : Scene :=
  { s with actions := setOutcome (s.actions ++ [(uid, ⟨name, text, none⟩)]) uid o }

/-- C2: the three use-case invocations of the pipeline engine pass the
keyword arguments `num_candidates, inputs, generator, selector, refiner,
visualizer, renderer`, but `GeneratorGraph.__init__` accepts `original`, not
`inputs`, so every such construction call fails Python's keyword binding
(a `TypeError`) instead of succeeding; the seed `inputs` lists the use cases
build do have arities 1, 4 and 2. -/
theorem c2_inputs_keyword_rejected :
    kwCallOk generatorInitParams pipelineCallKeywords = false ∧
    pipelineCallKeywords.contains "inputs" = true ∧
    generatorInitParams.contains "inputs" = false ∧
    generatorInitParams.contains "original" = true ∧
    pipelineCallKeywords.contains "original" = false ∧
    (∀ d, (createSceneInputs d).length = 1) ∧
    (∀ s o, (endSceneInputs s o).length = 2) ∧
    (∀ s o n a, (addActionInputs s o n a).length = 4) :=
  ⟨rfl, rfl, rfl, rfl, rfl, fun _ => rfl, fun _ _ => rfl, fun _ _ _ _ => rfl⟩

/-- C3: evaluation at the failing input.  With an active scene and a fresh
user, a reply whose `ai.add_action` call raises propagates the exception out
of the handler and leaves the user's reservation — a partial `Action` with
`outcome = none` — recorded in the scene, so the user cannot retry; only the
falsy-return path (second conjunct) removes the reservation. -/
theorem c3_reservation_survives_raised_failure :
    (handle_reply (E := String) (some ⟨10, "Scene", []⟩) 10 42 "Alice" "acts" 5
        (.error "ai down") (.ok none) =
      ⟨some ⟨10, "Scene", [(42, ⟨"Alice", "acts", none⟩)]⟩,
       [.ackEffect, .callAddAction "Scene" "" "Alice" "acts"],
       some "ai down"⟩) ∧
    containsUser [(42, (⟨"Alice", "acts", none⟩ : Action))] 42 = true ∧
    (handle_reply (E := String) (some ⟨10, "Scene", []⟩) 10 42 "Alice" "acts" 5
        (.ok none) (.ok none) =
      ⟨some ⟨10, "Scene", []⟩,
       [.ackEffect, .callAddAction "Scene" "" "Alice" "acts",
        .sendReply warnErrorProcessing], none⟩) :=
  ⟨rfl, rfl, rfl⟩

/-- C4: the retry wrapper makes at most 4 attempts; it returns the underlying
result of the first non-throwing attempt and logs the exception of every
failed attempt that preceded it; on exhausting all 4 attempts it re-raises
the last underlying exception itself (no sentinel, no wrapper) with all four
failures logged; the configured backoff doubles from each attempt to the
next. -/
theorem c4_retry_behavior {E A : Type} (call : Nat → Except E A) :
    ((retryCall retryMaxAttempts call).attemptsMade ≤ 4) ∧
    (∀ a, call 1 = .ok a →
      retryCall retryMaxAttempts call = ⟨.ok a, [], 1⟩) ∧
    (∀ e1 a, call 1 = .error e1 → call 2 = .ok a →
      retryCall retryMaxAttempts call = ⟨.ok a, [e1], 2⟩) ∧
    (∀ e1 e2 a, call 1 = .error e1 → call 2 = .error e2 → call 3 = .ok a →
      retryCall retryMaxAttempts call = ⟨.ok a, [e1, e2], 3⟩) ∧
    (∀ e1 e2 e3 a, call 1 = .error e1 → call 2 = .error e2 →
        call 3 = .error e3 → call 4 = .ok a →
      retryCall retryMaxAttempts call = ⟨.ok a, [e1, e2, e3], 4⟩) ∧
    (∀ e1 e2 e3 e4, call 1 = .error e1 → call 2 = .error e2 →
        call 3 = .error e3 → call 4 = .error e4 →
      retryCall retryMaxAttempts call = ⟨.error e4, [e1, e2, e3, e4], 4⟩) ∧
    (∀ n, waitExponential (n + 2) = 2 * waitExponential (n + 1)) := by
  refine ⟨?_, ?_, ?_, ?_, ?_, ?_, ?_⟩
  · cases h1 : call 1 with
    | ok a1 => simp [retryCall, retryMaxAttempts, retryGo, h1]
    | error e1 =>
      cases h2 : call 2 with
      | ok a2 => simp [retryCall, retryMaxAttempts, retryGo, h1, h2]
      | error e2 =>
        cases h3 : call 3 with
        | ok a3 => simp [retryCall, retryMaxAttempts, retryGo, h1, h2, h3]
        | error e3 =>
          cases h4 : call 4 with
          | ok a4 => simp [retryCall, retryMaxAttempts, retryGo, h1, h2, h3, h4]
          | error e4 => simp [retryCall, retryMaxAttempts, retryGo, h1, h2, h3, h4]
  · intro a h1
    simp [retryCall, retryMaxAttempts, retryGo, h1]
  · intro e1 a h1 h2
    simp [retryCall, retryMaxAttempts, retryGo, h1, h2]
  · intro e1 e2 a h1 h2 h3
    simp [retryCall, retryMaxAttempts, retryGo, h1, h2, h3]
  · intro e1 e2 e3 a h1 h2 h3 h4
    simp [retryCall, retryMaxAttempts, retryGo, h1, h2, h3, h4]
  · intro e1 e2 e3 e4 h1 h2 h3 h4
    simp [retryCall, retryMaxAttempts, retryGo, h1, h2, h3, h4]
  · intro n
    simp [waitExponential, pow_succ, Nat.mul_comm]

/-- C4, witness: a callable failing on attempts 1 and 2 and succeeding on
attempt 3 yields the attempt-3 result with both failures logged. -/
theorem c4_retry_behavior_witness :
    retryCall retryMaxAttempts
        (fun k => if k < 3 then Except.error (toString k) else Except.ok (7 : Nat)) =
      ⟨.ok 7, ["1", "2"], 3⟩ :=
  (c4_retry_behavior
    (fun k => if k < 3 then Except.error (toString k) else Except.ok (7 : Nat))).2.2.2.1
    "1" "2" 7 rfl rfl rfl

/-- C6, counterexample: with an active scene, a reply that does not target the
scene's anchor message is handled with NO effects at all — in particular no
message is sent back to the requester (and no pipeline invocation is made),
contrary to the claim that every listed user-input error is reported back
with a message. -/
theorem c6_untargeted_reply_silent_counterexample :
    handle_reply (E := String) (some ⟨10, "Scene", []⟩) 11 42 "Alice" "acts" 5
        (.ok (some "o")) (.ok (some "s")) =
      ⟨some ⟨10, "Scene", []⟩, [], none⟩ := rfl

/-- C6, amended: every listed user-input error is handled at orchestration
level and never causes a pipeline invocation; missing description, duplicate
reply, scene-already-active and no-active-scene-to-end are each reported back
to the requester with a warning message, while a reply that does not target
the active scene's anchor message is silently ignored (no message, no
effects). -/
theorem c6_user_input_errors {E : Type} :
    (∀ (cd : Option Scene) (res : Except E (Option String × Option String))
        (mid : Nat),
      handle_start cd [] res mid =
        ⟨cd, [.sendReply warnMissingDescription], none⟩) ∧
    (∀ (s : Scene) (args : List String)
        (res : Except E (Option String × Option String)) (mid : Nat),
      args ≠ [] →
      handle_start (some s) args res mid =
        ⟨some s, [.sendReply warnSceneActive], none⟩) ∧
    (∀ (s : Scene) (uid : Nat) (name text : String) (nm : Nat)
        (aRes eRes : Except E (Option String)),
      containsUser s.actions uid = true →
      handle_reply (some s) s.message_id uid name text nm aRes eRes =
        ⟨some s, [.sendReply warnAlreadyReplied], none⟩) ∧
    (∀ (res : Except E (Option String)),
      handle_end (E := E) none res =
        ⟨none, [.sendReply warnNoActiveScene], none⟩) ∧
    (∀ (s : Scene) (rid uid : Nat) (name text : String) (nm : Nat)
        (aRes eRes : Except E (Option String)),
      rid ≠ s.message_id →
      handle_reply (some s) rid uid name text nm aRes eRes =
        ⟨some s, [], none⟩) ∧
    (∀ t, isPipelineCall (.sendReply t) = false) := by
  refine ⟨?_, ?_, ?_, ?_, ?_, ?_⟩
  · intro cd res mid
    simp [handle_start]
  · intro s args res mid hargs
    cases args with
    | nil => exact absurd rfl hargs
    | cons a t => simp [handle_start]
  · intro s uid name text nm aRes eRes hdup
    simp [handle_reply, hdup]
  · intro res
    rfl
  · intro s rid uid name text nm aRes eRes hne
    simp [handle_reply, hne]
  · intro t
    rfl

/-- C6, witness: the amended statement at concrete inputs — a start command
while a scene is active, a duplicate reply, and an untargeted reply. -/
theorem c6_user_input_errors_witness :
    (handle_start (E := String) (some ⟨10, "Scene", []⟩) ["go"]
        (.ok (some "d", some "u")) 99 =
      ⟨some ⟨10, "Scene", []⟩, [.sendReply warnSceneActive], none⟩) ∧
    (handle_reply (E := String) (some ⟨10, "Scene", [(42, ⟨"A", "a", some "o"⟩)]⟩)
        10 42 "A" "x" 5 (.ok none) (.ok none) =
      ⟨some ⟨10, "Scene", [(42, ⟨"A", "a", some "o"⟩)]⟩,
       [.sendReply warnAlreadyReplied], none⟩) ∧
    (handle_reply (E := String) (some ⟨10, "Scene", []⟩) 11 1 "A" "x" 5
        (.ok none) (.ok none) = ⟨some ⟨10, "Scene", []⟩, [], none⟩) :=
  ⟨(c6_user_input_errors (E := String)).2.1 ⟨10, "Scene", []⟩ ["go"]
      (.ok (some "d", some "u")) 99 (by decide),
   (c6_user_input_errors (E := String)).2.2.1 ⟨10, "Scene", [(42, ⟨"A", "a", some "o"⟩)]⟩
      42 "A" "x" 5 (.ok none) (.ok none) (by decide),
   (c6_user_input_errors (E := String)).2.2.2.2.1 ⟨10, "Scene", []⟩ 11 1 "A" "x" 5
      (.ok none) (.ok none) (by decide)⟩

/-- C9: after an accepted reply whose outcome generation succeeds, the scene
holds one more recorded action; if that count strictly exceeds
`member_count // 2` the end transition (`handle_end`) is triggered
automatically on the updated scene, and otherwise the scene stays active with
no end invocation. -/
theorem c9_majority_auto_end {E : Type} (s : Scene) (uid : Nat)
    (name text o : String) (nm : Nat) (eRes : Except E (Option String))
    (hfresh : containsUser s.actions uid = false)
    (ho : o ≠ "") :
    (replyAccepted s uid name text o).actions.length = s.actions.length + 1 ∧
    (nm / 2 < s.actions.length + 1 →
      handle_reply (some s) s.message_id uid name text nm (.ok (some o)) eRes =
        ⟨(handle_end (some (replyAccepted s uid name text o)) eRes).chatData,
         [BotEffect.ackEffect,
          .callAddAction s.description (replyReserved s uid name text).outcomes
            name text,
          .sendReply o] ++
          (handle_end (some (replyAccepted s uid name text o)) eRes).effects,
         (handle_end (some (replyAccepted s uid name text o)) eRes).raised⟩) ∧
    (¬ nm / 2 < s.actions.length + 1 →
      handle_reply (some s) s.message_id uid name text nm (.ok (some o)) eRes =
        ⟨some (replyAccepted s uid name text o),
         [BotEffect.ackEffect,
          .callAddAction s.description (replyReserved s uid name text).outcomes
            name text,
          .sendReply o], none⟩) := by
  refine ⟨by simp [replyAccepted, setOutcome], ?_, ?_⟩
  · intro h
    simp [handle_reply, hfresh, ho, hasMajorityReplied, replyAccepted,
      replyReserved, setOutcome, h]
  · intro h
    simp [handle_reply, hfresh, ho, hasMajorityReplied, replyAccepted,
      replyReserved, setOutcome, h]

/-- C9, witness: in a one-member chat the first accepted reply crosses the
majority threshold and triggers the end transition, which completes the scene;
in a five-member chat the same reply leaves the scene active. -/
theorem c9_majority_auto_end_witness :
    (handle_reply (E := String) (some ⟨10, "Scene", []⟩) 10 42 "Alice" "acts" 1
        (.ok (some "outcome")) (.ok (some "summary")) =
      ⟨(handle_end (E := String) (some (replyAccepted ⟨10, "Scene", []⟩ 42 "Alice" "acts" "outcome"))
          (Except.ok (some "summary"))).chatData,
       [BotEffect.ackEffect,
        .callAddAction "Scene" (replyReserved ⟨10, "Scene", []⟩ 42 "Alice" "acts").outcomes
          "Alice" "acts",
        .sendReply "outcome"] ++
        (handle_end (E := String) (some (replyAccepted ⟨10, "Scene", []⟩ 42 "Alice" "acts" "outcome"))
          (Except.ok (some "summary"))).effects,
       (handle_end (E := String) (some (replyAccepted ⟨10, "Scene", []⟩ 42 "Alice" "acts" "outcome"))
          (Except.ok (some "summary"))).raised⟩) ∧
    (handle_reply (E := String) (some ⟨10, "Scene", []⟩) 10 42 "Alice" "acts" 5
        (.ok (some "outcome")) (.ok (some "summary")) =
      ⟨some (replyAccepted ⟨10, "Scene", []⟩ 42 "Alice" "acts" "outcome"),
       [BotEffect.ackEffect,
        .callAddAction "Scene" (replyReserved ⟨10, "Scene", []⟩ 42 "Alice" "acts").outcomes
          "Alice" "acts",
        .sendReply "outcome"], none⟩) :=
  ⟨(c9_majority_auto_end ⟨10, "Scene", []⟩ 42 "Alice" "acts" "outcome" 1
      (.ok (some "summary")) rfl (by decide)).2.1 (by decide),
   (c9_majority_auto_end ⟨10, "Scene", []⟩ 42 "Alice" "acts" "outcome" 5
      (.ok (some "summary")) rfl (by decide)).2.2 (by decide)⟩

/-- Helper for C10: on an action list with no empty-string outcome, the
truthiness filter of `Scene.outcomes` keeps exactly the non-null outcomes. -/
theorem filterMap_truthy_outcomes (l : List (Nat × Action))
    (h : ∀ p ∈ l, p.2.outcome ≠ some "") :
    (l.filterMap (fun p =>
      match p.2.outcome with
      | some o => if o = "" then none else some o
      | none => none)) = l.filterMap (fun p => p.2.outcome) := by
  induction l with
  | nil => rfl
  | cons a t ih =>
    simp only [List.filterMap_cons]
    have ha := h a (List.mem_cons_self a t)
    have ht : ∀ p ∈ t, p.2.outcome ≠ some "" :=
      fun p hp => h p (List.mem_cons_of_mem a hp)
    cases hoa : a.2.outcome with
    | none => simpa using ih ht
    | some o =>
      have hne : ¬ o = "" := by
        intro he
        exact ha (by rw [hoa, he])
      simp [hne, ih ht]

/-- C10: for a scene none of whose recorded outcomes is the empty string (the
only outcomes the bot ever stores are non-empty), `Scene.outcomes` is exactly
the outcome texts of the actions whose outcome is non-null — actions still in
flight are excluded — joined by one blank line in the insertion order of the
actions mapping. -/
theorem c10_outcomes_nonnull_in_order (s : Scene)
    (hinv : ∀ p ∈ s.actions, p.2.outcome ≠ some "") :
    s.outcomes =
      String.intercalate "\n\n" (s.actions.filterMap (fun p => p.2.outcome)) := by
  unfold Scene.outcomes
  rw [filterMap_truthy_outcomes s.actions hinv]

/-- C10, witness: a scene with two completed actions and one in flight yields
the two outcomes in insertion order joined by a blank line. -/
theorem c10_outcomes_nonnull_in_order_witness :
    Scene.outcomes ⟨1, "d", [(1, ⟨"A", "a", some "o1"⟩), (2, ⟨"B", "b", none⟩),
        (3, ⟨"C", "c", some "o2"⟩)]⟩ = "o1\n\no2" :=
  (c10_outcomes_nonnull_in_order ⟨1, "d", [(1, ⟨"A", "a", some "o1"⟩),
    (2, ⟨"B", "b", none⟩), (3, ⟨"C", "c", some "o2"⟩)]⟩ (by decide)).trans rfl

end Vignette
